import Mathlib

/-!
# Secure-UI core: shallow embedding and verification

This development embeds the security-tier policy engine, the base widget
lifecycle controller, and the `secure-select` widget of the Secure-UI
component library, and proves the specified properties about them.

The concrete widget `secure-select` is embedded from
`src/components/secure-select/secure-select.ts`.  The base component and
the security configuration module (`src/core/base-component.ts`,
`src/core/security-config.ts`) are not part of the source tree available
here — only their unit tests and callers are — so those parts are
modelled from the specification, with the tier-policy constants fixed by
the expectations in `tests/core/base-component.test.ts`.
-/

namespace SecureUI

/-! ## Security tier registry (`security-config.ts`)

Modelled from the spec: `src/core/security-config.ts` is missing from the
source tree.  The `TierPolicy` record follows spec §3, and the four frozen
policies follow spec §3/§8 together with the concrete values asserted by
`tests/core/base-component.test.ts` (levels 1..4, names, storage flags,
rate-limit quotas 10/60000 for sensitive and 5/60000 for critical,
`maxLength` 256 for critical, masking enabled for critical). -/

structure StoragePolicy where
  allowAutocomplete : Bool
  allowCache : Bool
  allowHistory : Bool
  deriving Repr, DecidableEq

structure MaskingPolicy where
  enabled : Bool
  partial_ : Bool
  character : String
  deriving Repr, DecidableEq

structure AuditPolicy where
  logAccess : Bool
  logChanges : Bool
  logSubmission : Bool
  includeMetadata : Bool
  deriving Repr, DecidableEq

structure RateLimitPolicy where
  enabled : Bool
  maxAttempts : Nat
  windowMs : Nat
  deriving Repr, DecidableEq

structure ValidationPolicy where
  required : Bool
  strict : Bool
  maxLength : Nat
  deriving Repr, DecidableEq

structure UiPolicy where
  showSecurityBadge : Bool
  labelSuffix : String
  deriving Repr, DecidableEq

structure TierPolicy where
  name : String
  level : Nat
  storage : StoragePolicy
  masking : MaskingPolicy
  audit : AuditPolicy
  rateLimit : RateLimitPolicy
  validation : ValidationPolicy
  ui : UiPolicy
  deriving Repr, DecidableEq

/-- Modelled from the spec: the frozen PUBLIC policy (level 1, all storage
allowed, masking off, audit off, rate limiting off). -/
def publicPolicy : TierPolicy :=
  { name := "Public"
    level := 1
    storage := { allowAutocomplete := true, allowCache := true, allowHistory := true }
    masking := { enabled := false, partial_ := false, character := "" }
    audit := { logAccess := false, logChanges := false, logSubmission := false,
               includeMetadata := false }
    rateLimit := { enabled := false, maxAttempts := 0, windowMs := 0 }
    validation := { required := false, strict := false, maxLength := 10000 }
    ui := { showSecurityBadge := false, labelSuffix := "" } }

/-- Modelled from the spec: the frozen AUTHENTICATED policy (level 2,
autocomplete allowed but no cache/history, change and submission audit,
`required` sourced true, maxLength 1000 per the length test). -/
def authenticatedPolicy : TierPolicy :=
  { name := "Authenticated"
    level := 2
    storage := { allowAutocomplete := true, allowCache := false, allowHistory := false }
    masking := { enabled := false, partial_ := false, character := "" }
    audit := { logAccess := false, logChanges := true, logSubmission := true,
               includeMetadata := false }
    rateLimit := { enabled := true, maxAttempts := 20, windowMs := 60000 }
    validation := { required := true, strict := false, maxLength := 1000 }
    ui := { showSecurityBadge := false, labelSuffix := "" } }

/-- Modelled from the spec: the frozen SENSITIVE policy (level 3, storage
all disallowed, full audit, rate limit 10 attempts per 60000 ms, strict
required validation). -/
def sensitivePolicy : TierPolicy :=
  { name := "Sensitive"
    level := 3
    storage := { allowAutocomplete := false, allowCache := false, allowHistory := false }
    masking := { enabled := true, partial_ := true, character := "*" }
    audit := { logAccess := true, logChanges := true, logSubmission := true,
               includeMetadata := true }
    rateLimit := { enabled := true, maxAttempts := 10, windowMs := 60000 }
    validation := { required := true, strict := true, maxLength := 1000 }
    ui := { showSecurityBadge := true, labelSuffix := " (Sensitive)" } }

/-- Modelled from the spec: the frozen CRITICAL policy (level 4, storage all
disallowed, masking enabled, full audit, rate limit 5 attempts per 60000 ms,
maxLength 256, security badge shown with a Critical label suffix). -/
def criticalPolicy : TierPolicy :=
  { name := "Critical"
    level := 4
    storage := { allowAutocomplete := false, allowCache := false, allowHistory := false }
    masking := { enabled := true, partial_ := false, character := "•" }
    audit := { logAccess := true, logChanges := true, logSubmission := true,
               includeMetadata := true }
    rateLimit := { enabled := true, maxAttempts := 5, windowMs := 60000 }
    validation := { required := true, strict := true, maxLength := 256 }
    ui := { showSecurityBadge := true, labelSuffix := " (Critical)" } }

/-- Modelled from the spec: `isValidTier(s)` returns true only for the 4
exact lowercase tier strings. -/
def isValidTier (s : String) : Bool :=
  s = "public" || s = "authenticated" || s = "sensitive" || s = "critical"

/-- Modelled from the spec: `getTierConfig` (the policy resolver `resolve`)
maps a possibly-absent, possibly-invalid tier string to its frozen policy,
failing secure to the CRITICAL policy on any unrecognized input (including
null/undefined, modelled as `none`).  Pure, total, never throws. -/
def getTierConfig : Option String → TierPolicy
  | none => criticalPolicy
  | some s =>
    if s = "public" then publicPolicy
    else if s = "authenticated" then authenticatedPolicy
    else if s = "sensitive" then sensitivePolicy
    else if s = "critical" then criticalPolicy
    else criticalPolicy

/-- Modelled from the spec: `compareTiers(a, b)` compares resolved levels;
unrecognized tiers compare as CRITICAL. -/
def compareTiers (a b : String) : Int :=
  let la := (getTierConfig (some a)).level
  let lb := (getTierConfig (some b)).level
  if la < lb then -1 else if la = lb then 0 else 1

/-- Modelled from the spec: `getMoreSecureTier(a, b)` returns whichever of
`a`/`b` resolves to the higher level; ties return `a`. -/
def getMoreSecureTier (a b : String) : String :=
  if (getTierConfig (some b)).level > (getTierConfig (some a)).level then b else a

/-! ## Rate limiter (`base-component.ts`, `checkRateLimit`)

Modelled from the spec: `src/core/base-component.ts` is missing from the
source tree.  Spec §4.3: fixed window counter.  On each call, if
`now - windowStart > windowMs`, reset `count = 0, windowStart = now`.
Increment count.  If `policy.rateLimit.enabled` is false, always return
`allowed: true, retryAfter: 0`.  Otherwise, if `count <= maxAttempts`,
return allowed; else return `allowed: false,
retryAfter: windowMs - (now - windowStart)`.  Timestamps are
milliseconds since the epoch (natural numbers; `now` never precedes
`windowStart` in the single-threaded event loop, so truncated
subtraction agrees with the JavaScript arithmetic). -/

structure RateLimitState where
  count : Nat
  windowStart : Nat
  deriving Repr, DecidableEq

structure RateLimitResult where
  allowed : Bool
  retryAfter : Nat
  deriving Repr, DecidableEq

/-- Modelled from the spec: one `checkRateLimit()` call at time `now`,
returning the result together with the updated per-instance state. -/
def checkRateLimit (pol : TierPolicy) (now : Nat) (st : RateLimitState) :
    RateLimitResult × RateLimitState :=
  let st0 := if now - st.windowStart > pol.rateLimit.windowMs
             then { count := 0, windowStart := now }
             else st
  let st1 : RateLimitState := { st0 with count := st0.count + 1 }
  if !pol.rateLimit.enabled then
    ({ allowed := true, retryAfter := 0 }, st1)
  else if st1.count ≤ pol.rateLimit.maxAttempts then
    ({ allowed := true, retryAfter := 0 }, st1)
  else
    ({ allowed := false, retryAfter := pol.rateLimit.windowMs - (now - st1.windowStart) }, st1)

/-- A sequence of `checkRateLimit` calls at the given times, collecting the
results in order. -/
def runRateLimit (pol : TierPolicy) (times : List Nat) (st : RateLimitState) :
    List RateLimitResult × RateLimitState :=
  match times with
  | [] => ([], st)
  | t :: ts =>
    let (r, st1) := checkRateLimit pol t st
    let (rs, st2) := runRateLimit pol ts st1
    (r :: rs, st2)

/-! ## Sanitizer (`base-component.ts`, `sanitizeValue`)

Modelled from the spec: spec §4.4 — non-string input (null/undefined/
number, modelled as `none`) returns the empty string; string input is
HTML-entity-encoded in full (`&`, `<`, `>`, `"`, `'` at minimum). -/

/-- Modelled from the spec: HTML-entity encoding of one character.  The
double quote is `Char.ofNat 34` and the apostrophe `Char.ofNat 39`. -/
def encodeChar (c : Char) : String :=
  if c = '&' then "&amp;"
  else if c = '<' then "&lt;"
  else if c = '>' then "&gt;"
  else if c = Char.ofNat 34 then "&quot;"
  else if c = Char.ofNat 39 then "&#39;"
  else String.singleton c

/-- HTML-entity encoding of a character list, in order. -/
def sanitizeChars : List Char → String
  | [] => ""
  | c :: cs => encodeChar c ++ sanitizeChars cs

/-- Modelled from the spec: `sanitizeValue(raw)`.  Non-string input is
`none` and yields the empty string; a string is entity-encoded
character by character. -/
def sanitizeValue : Option String → String
  | none => ""
  | some s => sanitizeChars s.data

/-! ## Validator (`base-component.ts`, `validateInput`)

Modelled from the spec: spec §4.4 — constraints
`{required?, minLength?, maxLength?, pattern?}`, with `required` and
`maxLength` sourced from the resolved tier policy when the widget omits
them.  All checks run (no short-circuit) in the fixed order
required-empty → below minLength → above maxLength → pattern mismatch,
each failing check appending one message; `valid` iff no errors.
The caller-supplied regular expression is modelled as its matching
predicate. -/

structure ValidationConstraints where
  required : Option Bool := none
  minLength : Option Nat := none
  maxLength : Option Nat := none
  pattern : Option (String → Bool) := none

structure ValidationResult where
  valid : Bool
  errors : List String
  deriving Repr, DecidableEq

/-- The message appended by the minLength check. -/
def minLengthMsg (m : Nat) : String :=
  "Must be at least " ++ toString m ++ " characters"

/-- The message appended by the maxLength check. -/
def maxLengthMsg (m : Nat) : String :=
  "Exceeds maximum length of " ++ toString m ++ " characters"

/-- Modelled from the spec: `validateInput(value, constraints)` against the
instance's resolved tier policy. -/
def validateInput (pol : TierPolicy) (value : String) (c : ValidationConstraints) :
    ValidationResult :=
  let required := c.required.getD pol.validation.required
  let maxLength := c.maxLength.getD pol.validation.maxLength
  let errors : List String := []
  let errors := if required && value.length = 0
                then errors ++ ["This field is required"] else errors
  let errors := match c.minLength with
                | some m => if value.length < m then errors ++ [minLengthMsg m] else errors
                | none => errors
  let errors := if value.length > maxLength
                then errors ++ [maxLengthMsg maxLength] else errors
  let errors := match c.pattern with
                | some p => if !p value then errors ++ ["Invalid format"] else errors
                | none => errors
  { valid := errors.isEmpty, errors := errors }

/-! ## Audit log (`base-component.ts`, `audit` / `getAuditLog`)

Modelled from the spec: spec §4.5 — `audit(event, data)` appends
`{event, timestamp: now as ISO-8601, tier: this.securityTier, ...data}`
to the instance's log; `getAuditLog()` returns a shallow copy so that
consumers cannot mutate internal state through the accessor.

To make the copy claim meaningful, JavaScript array aliasing is made
explicit: a heap of array cells addressed by references.  The instance's
backing store lives at one reference; `getAuditLog` allocates a fresh
cell holding a copy of the backing store and hands out its reference.
The ISO-8601 timestamp string is supplied by the environment's clock
(`Date().toISOString()`), so it is a parameter here. -/

structure AuditEntry where
  event : String
  timestamp : String
  tier : String
  deriving Repr, DecidableEq

/-- A heap of JavaScript arrays of audit entries, addressed by `Nat`
references. -/
structure ArrayHeap where
  cells : List (List AuditEntry)
  deriving Repr, DecidableEq

/-- Read the array stored at reference `r` (empty if dangling). -/
def ArrayHeap.read (h : ArrayHeap) (r : Nat) : List AuditEntry :=
  h.cells.getD r []

/-- Overwrite the array stored at reference `r` (a caller mutating an array
it holds a reference to). -/
def ArrayHeap.write (h : ArrayHeap) (r : Nat) (v : List AuditEntry) : ArrayHeap :=
  ⟨h.cells.set r v⟩

/-- Allocate a fresh array cell holding `v`; returns its reference. -/
def ArrayHeap.alloc (h : ArrayHeap) (v : List AuditEntry) : Nat × ArrayHeap :=
  (h.cells.length, ⟨h.cells ++ [v]⟩)

/-- A reference is live when it addresses an existing cell. -/
def ArrayHeap.Live (h : ArrayHeap) (r : Nat) : Prop :=
  r < h.cells.length

/-- Modelled from the spec: `audit(event, data)` appends exactly one entry
(event tag, ISO-8601 timestamp `ts`, the instance's tier) to the backing
store at `logRef`. -/
def audit (h : ArrayHeap) (logRef : Nat) (event ts tier : String) : ArrayHeap :=
  h.write logRef (h.read logRef ++ [{ event := event, timestamp := ts, tier := tier }])

/-- Modelled from the spec: `getAuditLog()` allocates a fresh shallow copy
of the backing store and returns its reference. -/
def getAuditLog (h : ArrayHeap) (logRef : Nat) : Nat × ArrayHeap :=
  h.alloc (h.read logRef)

/-- A caller applying an arbitrary sequence of mutations to the array it
got back: each step overwrites the cell at `r` with a new value. -/
def mutateAll (h : ArrayHeap) (r : Nat) : List (List AuditEntry) → ArrayHeap
  | [] => h
  | v :: vs => mutateAll (h.write r v) r vs

/-! ## Base widget lifecycle controller (`base-component.ts`)

Modelled from the spec: spec §4.2 — the per-instance state machine.
`tierAttr` is the current value of the `security-tier` attribute
(`none` when absent), `tier` the resolved tier string (fixed at first
connection), `initialized` the one-time render guard, `warnings` the
number of console warnings emitted, `renderCount` the number of times
the subclass `render` has run, `rl` the rate limiter state and
`connected` the document-connection flag. -/

structure WidgetState where
  tierAttr : Option String
  tier : String
  initialized : Bool
  warnings : Nat
  renderCount : Nat
  rl : RateLimitState
  connected : Bool
  deriving Repr, DecidableEq

/-- The state of a freshly constructed widget whose `security-tier`
attribute currently holds `attr`. -/
def construct (attr : Option String) : WidgetState :=
  { tierAttr := attr, tier := "", initialized := false, warnings := 0,
    renderCount := 0, rl := { count := 0, windowStart := 0 }, connected := true }

/-- The resolved tier string for an attribute value: the attribute itself
when valid, otherwise the fail-secure `critical`. -/
def resolveTier (attr : Option String) : String :=
  match attr with
  | some s => if isValidTier s then s else "critical"
  | none => "critical"

/-- Modelled from the spec: `connectedCallback`.  On first connection the
tier is resolved from the attribute, `render` runs once and the
`initialized` guard is set; reconnection with the guard already set
re-enters the ready state without re-rendering. -/
def connect (st : WidgetState) : WidgetState :=
  if st.initialized then { st with connected := true }
  else
    { st with
      connected := true
      tier := resolveTier st.tierAttr
      renderCount := st.renderCount + 1
      initialized := true }

/-- Modelled from the spec: `disconnectedCallback`.  Rate-limiter window
state is cleared; the `initialized` guard is preserved. -/
def disconnect (st : WidgetState) : WidgetState :=
  { st with connected := false, rl := { count := 0, windowStart := 0 } }

/-- Modelled from the spec: the net effect of `setAttribute('security-tier', u)`
observed through `attributeChangedCallback` after initialization.  A change
to a value other than the resolved tier is detected and reverted in place
(the attribute is set back to its original value) with one console
warning; setting the attribute to the resolved tier itself is a no-op
change.  Before initialization the attribute simply takes the new value.
Total — no exception escapes the callback. -/
def setTierAttribute (st : WidgetState) (u : String) : WidgetState :=
  if st.initialized then
    if u = st.tier then { st with tierAttr := some u }
    else { st with warnings := st.warnings + 1 }
  else { st with tierAttr := some u }

/-! ## `secure-select` (`src/components/secure-select/secure-select.ts`)

Embedded from the source.  The model tracks the private fields of the
class (`#validOptions`, `#optionsTransferred`, `#isMultiple`, the internal
`<select>` element's options and current value) together with the light-DOM
children the component was authored with, its `value` attribute, the audit
event tags emitted through the inherited `audit` helper (whose full entry
shape is verified separately on the base component model), the currently
shown error message, and the base-class fields (`initialized`, rate-limiter
state, connectedness) that `super.connectedCallback` /
`super.disconnectedCallback` manage.

A DOM `<option>` authored in light DOM is read through
`getAttribute('value')` and `textContent`; an option of the internal
select element carries the (sanitized) value/text plus its
`selected`/`disabled` flags.  Assigning `v` to a `<select>` element's
`value` property selects the option whose value is `v` and clears the
selection (value `""`) when no option matches — `assignSelectValue`
models that DOM behavior. -/

structure LightOption where
  valueAttr : Option String
  textContent : String
  hasSelected : Bool
  hasDisabled : Bool
  deriving Repr, DecidableEq

structure OptionEl where
  value : String
  text : String
  selected : Bool
  disabled : Bool
  deriving Repr, DecidableEq

/-- `Set.add` on the model of a JavaScript `Set<string>`: insertion order,
no duplicates. -/
def addSet (s : List String) (v : String) : List String :=
  if s.contains v then s else s ++ [v]

/-- DOM semantics of `selectElement.value = v`: the value sticks exactly
when some option carries it, otherwise the selection is cleared. -/
def assignSelectValue (opts : List OptionEl) (v : String) : String :=
  if opts.any (fun o => o.value = v) then v else ""

structure SelectState where
  optionsTransferred : Bool
  validOptions : List String
  selectOptions : List OptionEl
  selectValue : String
  lightOptions : List LightOption
  valueAttr : Option String
  isMultiple : Bool
  auditEvents : List String
  lastError : Option String
  initialized : Bool
  connected : Bool
  rl : RateLimitState
  deriving Repr, DecidableEq

/-- Accumulator for the `options.forEach` loop of `#transferOptions`. -/
structure TransferAcc where
  validOptions : List String
  selectOptions : List OptionEl
  selectedValues : List String
  deriving Repr, DecidableEq

/-- One iteration of the `#transferOptions` loop: sanitize the option's
value and text, record the value as valid, remember it when the option was
authored `selected`, and append the rebuilt option to the select. -/
def transferOne (acc : TransferAcc) (o : LightOption) : TransferAcc :=
  let v := sanitizeValue (some (o.valueAttr.getD ""))
  let newOption : OptionEl :=
    { value := v, text := sanitizeValue (some o.textContent),
      selected := o.hasSelected, disabled := o.hasDisabled }
  { validOptions := addSet acc.validOptions v
    selectOptions := acc.selectOptions ++ [newOption]
    selectedValues := if o.hasSelected then acc.selectedValues ++ [v] else acc.selectedValues }

/-- `#transferOptions` (secure-select.ts:255–303): guarded one-shot
transfer of light-DOM options into the internal select.  Returns
immediately once `#optionsTransferred` is set; otherwise sets the flag,
copies and sanitizes each light-DOM option, and (single-select only) sets
the initial value — the `value` attribute taking precedence over a
`selected` option. -/
def transferOptions (st : SelectState) : SelectState :=
  if st.optionsTransferred then st
  else
    let st1 : SelectState := { st with optionsTransferred := true }
    if st.lightOptions.isEmpty then st1
    else
      let acc := st.lightOptions.foldl transferOne
        { validOptions := st.validOptions, selectOptions := st.selectOptions,
          selectedValues := [] }
      let st2 : SelectState :=
        { st1 with validOptions := acc.validOptions, selectOptions := acc.selectOptions }
      if st2.isMultiple then st2
      else
        let initialValue := st.valueAttr.getD ""
        if initialValue ≠ "" then
          { st2 with selectValue := assignSelectValue st2.selectOptions initialValue }
        else if !acc.selectedValues.isEmpty then
          { st2 with selectValue := assignSelectValue st2.selectOptions (acc.selectedValues.headD "") }
        else st2

/-- `#handleChange` (secure-select.ts:343–416), taken after the DOM has
already updated the select's value/selected options to the user's pick.
Single select: a non-empty value outside `#validOptions` shows an error,
audits `invalid_option_detected` and resets the value to the empty
string; otherwise errors are cleared, `select_changed` is audited and the
`secure-select` event dispatched.  Multi select: same with the list of
selected values. -/
def handleChange (st : SelectState) : SelectState :=
  if st.isMultiple then
    let selectedValues := (st.selectOptions.filter (fun o => o.selected)).map (fun o => o.value)
    let invalidValues := selectedValues.filter (fun v => v ≠ "" && !st.validOptions.contains v)
    if !invalidValues.isEmpty then
      { st with lastError := some "Invalid option selected",
                auditEvents := st.auditEvents ++ ["invalid_option_detected"] }
    else
      { st with lastError := none,
                auditEvents := st.auditEvents ++ ["select_changed"] }
  else
    let selectedValue := st.selectValue
    if selectedValue ≠ "" && !st.validOptions.contains selectedValue then
      { st with lastError := some "Invalid option selected",
                auditEvents := st.auditEvents ++ ["invalid_option_detected"],
                selectValue := assignSelectValue st.selectOptions "" }
    else
      { st with lastError := none,
                auditEvents := st.auditEvents ++ ["select_changed"] }

/-- Select the first option whose value is `v` (the `find` in the
multi-select branch of the value setter). -/
def selectFirstMatching (opts : List OptionEl) (v : String) : List OptionEl :=
  match opts with
  | [] => []
  | o :: rest =>
    if o.value = v then { o with selected := true } :: rest
    else o :: selectFirstMatching rest v

/-- `set value` (secure-select.ts:641–661).  Multi select: split on commas,
trim, deselect everything, then re-select matching options whose value is
registered valid.  Single select: assign only when the value is in
`#validOptions`, otherwise do nothing. -/
def setValue (st : SelectState) (v : String) : SelectState :=
  if st.isMultiple then
    let values := ((v.splitOn ",").map (fun w => w.trim)).filter (fun w => w ≠ "")
    let deselected := st.selectOptions.map (fun o => { o with selected := false })
    let opts := values.foldl
      (fun acc w => if st.validOptions.contains w then selectFirstMatching acc w else acc)
      deselected
    { st with selectOptions := opts }
  else
    if st.validOptions.contains v then
      { st with selectValue := assignSelectValue st.selectOptions v }
    else st

/-- `disconnectedCallback` (secure-select.ts:793–795): runs only the base
teardown — modelled from the spec, the base clears the rate-limiter window
state and preserves the `initialized` guard — and deliberately does not
clear `#validOptions` (or any other subclass-private field, which the base
class cannot reach). -/
def selDisconnect (st : SelectState) : SelectState :=
  { st with connected := false, rl := { count := 0, windowStart := 0 } }

/-- The base `connectedCallback` on a secure-select instance: a reconnect
with the `initialized` guard still set re-enters the ready state without
re-rendering (modelled from the spec, base component missing from the
source tree). -/
def selConnect (st : SelectState) : SelectState :=
  if st.initialized then { st with connected := true }
  else { st with connected := true, initialized := true }

/-! ## Theorems -/

/-- C1: for every input not exactly equal to one of the four tier strings
(including the empty string and null/undefined-like inputs, modelled as
`none`), the policy resolver returns the CRITICAL tier policy (level 4) —
never the PUBLIC policy — and for each of the four valid tier strings it
returns that tier's policy.  `getTierConfig` is a total function, so it
never throws. -/
theorem getTierConfig_fail_secure :
    (∀ o : Option String, (∀ s, o = some s → isValidTier s = false) →
      getTierConfig o = criticalPolicy ∧ (getTierConfig o).level = 4 ∧
        getTierConfig o ≠ publicPolicy) ∧
    getTierConfig (some "public") = publicPolicy ∧
    getTierConfig (some "authenticated") = authenticatedPolicy ∧
    getTierConfig (some "sensitive") = sensitivePolicy ∧
    getTierConfig (some "critical") = criticalPolicy := by
  have hne : criticalPolicy ≠ publicPolicy := by
    intro h
    exact absurd (congrArg TierPolicy.level h) (by decide)
  refine ⟨?_, rfl, rfl, rfl, rfl⟩
  intro o h
  match o with
  | none => exact ⟨rfl, rfl, hne⟩
  | some s =>
    have hs := h s rfl
    simp only [isValidTier, Bool.or_eq_false_iff, decide_eq_false_iff_not] at hs
    obtain ⟨⟨⟨h1, h2⟩, h3⟩, h4⟩ := hs
    have hcrit : getTierConfig (some s) = criticalPolicy := by
      simp [getTierConfig, h1, h2, h3, h4]
    exact ⟨hcrit, by rw [hcrit]; rfl, hcrit ▸ hne⟩

/-- C1 witness: the resolver at the concrete invalid inputs `"bogus"`,
`""` and `none` yields the CRITICAL policy. -/
theorem getTierConfig_fail_secure_witness :
    getTierConfig (some "bogus") = criticalPolicy ∧
    getTierConfig (some "") = criticalPolicy ∧
    getTierConfig none = criticalPolicy :=
  ⟨(getTierConfig_fail_secure.1 (some "bogus") (fun s hs => by cases hs; decide)).1,
   (getTierConfig_fail_secure.1 (some "") (fun s hs => by cases hs; decide)).1,
   (getTierConfig_fail_secure.1 none (fun s hs => by cases hs)).1⟩

/-- C2: once a widget instance is connected with resolved tier T, an
attempted change of the `security-tier` attribute to any U ≠ T leaves the
`securityTier` getter unchanged and equal to T, leaves the attribute at its
original value (reverted), and emits exactly one console warning.
`setTierAttribute` is total, so no exception is thrown. -/
theorem tier_immutable_after_init (st : WidgetState) (u : String)
    (hinit : st.initialized = true) (hne : u ≠ st.tier) :
    (setTierAttribute st u).tier = st.tier ∧
    (setTierAttribute st u).tierAttr = st.tierAttr ∧
    (setTierAttribute st u).warnings = st.warnings + 1 := by
  simp [setTierAttribute, hinit, hne]

/-- C2 witness: a widget connected with tier `public` rejects a later
attribute change to `critical`. -/
theorem tier_immutable_after_init_witness :
    (setTierAttribute (connect (construct (some "public"))) "critical").tier = "public" ∧
    (setTierAttribute (connect (construct (some "public"))) "critical").tierAttr
      = some "public" ∧
    (setTierAttribute (connect (construct (some "public"))) "critical").warnings = 1 := by
  have h := tier_immutable_after_init (connect (construct (some "public"))) "critical"
    (by decide) (by decide)
  exact ⟨h.1, h.2.1, h.2.2⟩

/-- C7: for a widget whose `initialized` guard is set, a disconnect
followed by a reconnect leaves the render count unchanged (the subclass
`render` is not invoked again) while the rate-limiter count is reset to 0;
over the whole construct/connect/disconnect/reconnect cycle `render` runs
exactly once. -/
theorem no_rerender_on_reconnect :
    (∀ st : WidgetState, st.initialized = true →
      (connect (disconnect st)).renderCount = st.renderCount ∧
      (connect (disconnect st)).rl.count = 0 ∧
      (connect (disconnect st)).initialized = true) ∧
    (∀ attr : Option String,
      (connect (disconnect (connect (construct attr)))).renderCount = 1 ∧
      (connect (disconnect (connect (construct attr)))).rl.count = 0) := by
  constructor
  · intro st hinit
    simp [connect, disconnect, hinit]
  · intro attr
    simp [connect, disconnect, construct]

/-- C7 witness: the full lifecycle cycle on a concrete widget with tier
attribute `sensitive` renders exactly once and ends with a fresh rate
limiter. -/
theorem no_rerender_on_reconnect_witness :
    (connect (disconnect (connect (construct (some "sensitive"))))).renderCount = 1 ∧
    (connect (disconnect (connect (construct (some "sensitive"))))).rl.count = 0 :=
  no_rerender_on_reconnect.2 (some "sensitive")

/-- One `checkRateLimit` call that does not cross the window boundary
(`now - w ≤ windowMs`): no reset happens, the count just increments. -/
theorem checkRateLimit_no_reset (pol : TierPolicy) (now k w : Nat)
    (h : now - w ≤ pol.rateLimit.windowMs) :
    checkRateLimit pol now { count := k, windowStart := w } =
      (if !pol.rateLimit.enabled then { allowed := true, retryAfter := 0 }
       else if k + 1 ≤ pol.rateLimit.maxAttempts then { allowed := true, retryAfter := 0 }
       else { allowed := false, retryAfter := pol.rateLimit.windowMs - (now - w) },
       { count := k + 1, windowStart := w }) := by
  simp only [checkRateLimit]
  rw [if_neg (by omega : ¬ now - w > pol.rateLimit.windowMs)]
  split
  · rfl
  · split <;> rfl

/-- Running a batch of in-window calls with rate limiting enabled: as long
as the count stays within `maxAttempts`, every call is allowed and the
state ends at the accumulated count with the window start untouched. -/
theorem runRateLimit_in_window (pol : TierPolicy) (hen : pol.rateLimit.enabled = true)
    (w : Nat) :
    ∀ (times : List Nat) (k : Nat),
      (∀ t ∈ times, t - w ≤ pol.rateLimit.windowMs) →
      k + times.length ≤ pol.rateLimit.maxAttempts →
      (∀ r ∈ (runRateLimit pol times { count := k, windowStart := w }).1,
          r.allowed = true) ∧
      (runRateLimit pol times { count := k, windowStart := w }).2
        = { count := k + times.length, windowStart := w } := by
  intro times
  induction times with
  | nil =>
    intro k _ _
    exact ⟨by simp [runRateLimit], by simp [runRateLimit]⟩
  | cons t ts ih =>
    intro k hw hk
    have ht : t - w ≤ pol.rateLimit.windowMs := hw t (List.mem_cons_self _ _)
    have hk1 : k + 1 ≤ pol.rateLimit.maxAttempts := by
      simp only [List.length_cons] at hk; omega
    have hrest := ih (k + 1) (fun u hu => hw u (List.mem_cons_of_mem _ hu))
      (by simp only [List.length_cons] at hk; omega)
    constructor
    · intro r hr
      simp only [runRateLimit, checkRateLimit_no_reset pol t k w ht, hen,
        Bool.not_true, Bool.false_eq_true, if_false, if_pos hk1] at hr
      rcases List.mem_cons.mp hr with h1 | h2
      · rw [h1]
      · exact hrest.1 r h2
    · simp only [runRateLimit, checkRateLimit_no_reset pol t k w ht, hen,
        Bool.not_true, Bool.false_eq_true, if_false, if_pos hk1]
      rw [hrest.2]
      simp only [List.length_cons]
      congr 1
      omega

/-- C3 counterexample: with the CRITICAL policy (5 attempts per 60000 ms
window) and all six calls at time 60000 from a window started at 0 — still
the same window, since `60000 - 0 > 60000` is false and no reset occurs —
the sixth call is blocked with `retryAfter = 0`, not strictly positive as
the claim states. -/
theorem checkRateLimit_zero_retryAfter_at_window_edge :
    ((runRateLimit criticalPolicy [60000, 60000, 60000, 60000, 60000, 60000]
        { count := 0, windowStart := 0 }).1.getLast?
      = some { allowed := false, retryAfter := 0 }) ∧
    ¬ (60000 - 0 > criticalPolicy.rateLimit.windowMs) := by decide

/-- C3 (amended): `checkRateLimit` is a fixed-window counter.  When the
tier policy has rate limiting disabled it returns `{allowed: true,
retryAfter: 0}` on every call; when `now - windowStart` exceeds `windowMs`
the counter resets and the window restarts at `now` before the increment
(post-state count 1); when enabled, the first `maxAttempts` in-window
calls are all allowed, and the next call in the same window is blocked
with `retryAfter = windowMs - (now - windowStart)` — which is nonnegative,
and strictly positive whenever `now - windowStart` is strictly less than
`windowMs` (it is zero at the exact instant the window expires). -/
theorem checkRateLimit_fixed_window (pol : TierPolicy) :
    (∀ (now : Nat) (st : RateLimitState), pol.rateLimit.enabled = false →
      (checkRateLimit pol now st).1 = { allowed := true, retryAfter := 0 }) ∧
    (∀ (now : Nat) (st : RateLimitState),
      now - st.windowStart > pol.rateLimit.windowMs →
      (checkRateLimit pol now st).2 = { count := 1, windowStart := now }) ∧
    (pol.rateLimit.enabled = true →
      ∀ (w : Nat) (times : List Nat),
        (∀ t ∈ times, t - w ≤ pol.rateLimit.windowMs) →
        times.length = pol.rateLimit.maxAttempts →
        (∀ r ∈ (runRateLimit pol times { count := 0, windowStart := w }).1,
            r.allowed = true) ∧
        (∀ u : Nat, u - w ≤ pol.rateLimit.windowMs →
          (checkRateLimit pol u
              (runRateLimit pol times { count := 0, windowStart := w }).2).1
            = { allowed := false,
                retryAfter := pol.rateLimit.windowMs - (u - w) } ∧
          (u - w < pol.rateLimit.windowMs →
            0 < pol.rateLimit.windowMs - (u - w)))) := by
  refine ⟨?_, ?_, ?_⟩
  · intro now st hdis
    simp [checkRateLimit, hdis]
  · intro now st hreset
    simp [checkRateLimit, hreset]
    split
    · rfl
    · split <;> rfl
  · intro hen w times hw hlen
    have hrun := runRateLimit_in_window pol hen w times 0 hw (by omega)
    refine ⟨hrun.1, ?_⟩
    intro u hu
    rw [hrun.2]
    rw [checkRateLimit_no_reset pol u (0 + times.length) w hu]
    constructor
    · have : ¬ (0 + times.length + 1 ≤ pol.rateLimit.maxAttempts) := by omega
      simp [hen, this]
      omega
    · intro hlt
      omega

/-- C3 witness: CRITICAL tier, five calls at time 0 are all allowed; a
sixth call at time 1000 in the same window is blocked with
`retryAfter = 59000 > 0`. -/
theorem checkRateLimit_fixed_window_witness :
    (∀ r ∈ (runRateLimit criticalPolicy [0, 0, 0, 0, 0]
        { count := 0, windowStart := 0 }).1, r.allowed = true) ∧
    (checkRateLimit criticalPolicy 1000
        (runRateLimit criticalPolicy [0, 0, 0, 0, 0]
          { count := 0, windowStart := 0 }).2).1
      = { allowed := false, retryAfter := criticalPolicy.rateLimit.windowMs - (1000 - 0) } ∧
    criticalPolicy.rateLimit.windowMs - (1000 - 0) = 59000 := by
  have h := (checkRateLimit_fixed_window criticalPolicy).2.2 rfl 0 [0, 0, 0, 0, 0]
    (by decide) (by decide)
  exact ⟨h.1, (h.2 1000 (by decide)).1, by decide⟩

/-- No character produced by `encodeChar` is a raw `<`, `>`, double quote
or apostrophe: the entity replacement strings contain none of them, and a
character passed through unchanged is none of them by the guards. -/
theorem encodeChar_no_markup (a c : Char) (h : c ∈ (encodeChar a).data) :
    c ≠ '<' ∧ c ≠ '>' ∧ c ≠ Char.ofNat 34 ∧ c ≠ Char.ofNat 39 := by
  unfold encodeChar at h
  split at h
  · rw [show ("&amp;" : String).data = ['&', 'a', 'm', 'p', ';'] from rfl] at h
    fin_cases h <;> decide
  · split at h
    · rw [show ("&lt;" : String).data = ['&', 'l', 't', ';'] from rfl] at h
      fin_cases h <;> decide
    · split at h
      · rw [show ("&gt;" : String).data = ['&', 'g', 't', ';'] from rfl] at h
        fin_cases h <;> decide
      · split at h
        · rw [show ("&quot;" : String).data = ['&', 'q', 'u', 'o', 't', ';'] from rfl] at h
          fin_cases h <;> decide
        · split at h
          · rw [show ("&#39;" : String).data = ['&', '#', '3', '9', ';'] from rfl] at h
            fin_cases h <;> decide
          · have hc : c = a := by simpa using h
            subst hc
            refine ⟨?_, ?_, ?_, ?_⟩ <;> simp_all

/-- Every character of `sanitizeChars l` comes from encoding some
character of `l`. -/
theorem mem_sanitizeChars (l : List Char) (c : Char)
    (h : c ∈ (sanitizeChars l).data) : ∃ a ∈ l, c ∈ (encodeChar a).data := by
  induction l with
  | nil => simp [sanitizeChars] at h
  | cons a as ih =>
    rw [sanitizeChars, String.data_append] at h
    rcases List.mem_append.mp h with h1 | h2
    · exact ⟨a, List.mem_cons_self _ _, h1⟩
    · obtain ⟨b, hb, hc⟩ := ih h2
      exact ⟨b, List.mem_cons_of_mem _ hb, hc⟩

/-- A character list free of the five special characters is passed through
`sanitizeChars` unchanged. -/
theorem sanitizeChars_id (l : List Char)
    (h : ∀ c ∈ l, c ≠ '&' ∧ c ≠ '<' ∧ c ≠ '>' ∧ c ≠ Char.ofNat 34 ∧ c ≠ Char.ofNat 39) :
    sanitizeChars l = String.mk l := by
  induction l with
  | nil => rfl
  | cons a as ih =>
    obtain ⟨h1, h2, h3, h4, h5⟩ := h a (List.mem_cons_self _ _)
    have hrest := ih (fun c hc => h c (List.mem_cons_of_mem _ hc))
    rw [sanitizeChars, hrest]
    apply String.ext
    rw [String.data_append]
    simp [encodeChar, h1, h2, h3, h4, h5, String.singleton]

/-- `sanitizeChars` is a homomorphism for concatenation: encoding acts on
each character occurrence independently. -/
theorem sanitizeChars_append (l₁ l₂ : List Char) :
    sanitizeChars (l₁ ++ l₂) = sanitizeChars l₁ ++ sanitizeChars l₂ := by
  induction l₁ with
  | nil =>
    apply String.ext
    rw [List.nil_append, sanitizeChars, String.data_append]
    rfl
  | cons c cs ih =>
    rw [List.cons_append, sanitizeChars, sanitizeChars, ih, String.append_assoc]

/-- C4: `sanitizeValue` returns the empty string for every non-string
input (modelled as `none`).  For every string input each occurrence of
the five special characters is HTML-entity-encoded: sanitization
distributes over concatenation and maps `&` to `&amp;`, `<` to `&lt;`,
`>` to `&gt;`, the double quote to `&quot;` and the apostrophe to
`&#39;`, so the output contains no raw `<`, `>`, double quote or
apostrophe and in particular no literal `<script>` substring; a string
containing none of the five special characters is returned unchanged. -/
theorem sanitizeValue_encodes_markup :
    sanitizeValue none = "" ∧
    (∀ s : String, ∀ c ∈ (sanitizeValue (some s)).data,
      c ≠ '<' ∧ c ≠ '>' ∧ c ≠ Char.ofNat 34 ∧ c ≠ Char.ofNat 39) ∧
    (∀ s : String, ¬ ("<script>".data <:+: (sanitizeValue (some s)).data)) ∧
    (∀ s : String,
      (∀ c ∈ s.data, c ≠ '&' ∧ c ≠ '<' ∧ c ≠ '>' ∧ c ≠ Char.ofNat 34 ∧ c ≠ Char.ofNat 39) →
      sanitizeValue (some s) = s) ∧
    (∀ s t : String,
      sanitizeValue (some (s ++ t)) = sanitizeValue (some s) ++ sanitizeValue (some t)) ∧
    (sanitizeValue (some "&") = "&amp;" ∧
     sanitizeValue (some "<") = "&lt;" ∧
     sanitizeValue (some ">") = "&gt;" ∧
     sanitizeValue (some (String.singleton (Char.ofNat 34))) = "&quot;" ∧
     sanitizeValue (some (String.singleton (Char.ofNat 39))) = "&#39;") := by
  have hmem : ∀ s : String, ∀ c ∈ (sanitizeValue (some s)).data,
      c ≠ '<' ∧ c ≠ '>' ∧ c ≠ Char.ofNat 34 ∧ c ≠ Char.ofNat 39 := by
    intro s c hc
    obtain ⟨a, _, ha⟩ := mem_sanitizeChars s.data c hc
    exact encodeChar_no_markup a c ha
  refine ⟨rfl, hmem, ?_, ?_, ?_, by decide, by decide, by decide, by decide, by decide⟩
  · intro s hinf
    have hlt : '<' ∈ (sanitizeValue (some s)).data :=
      hinf.subset (by decide : '<' ∈ ("<script>" : String).data)
    exact (hmem s '<' hlt).1 rfl
  · intro s hs
    have := sanitizeChars_id s.data hs
    simpa [sanitizeValue] using this
  · intro s t
    show sanitizeChars (s ++ t).data = sanitizeChars s.data ++ sanitizeChars t.data
    rw [String.data_append, sanitizeChars_append]

/-- C4 witness: the canonical XSS probe is encoded (no raw `<` survives),
a benign string passes through unchanged, and the ampersand in
`Tom & Jerry` is encoded to `&amp;`. -/
theorem sanitizeValue_encodes_markup_witness :
    (¬ ("<script>".data <:+: (sanitizeValue (some "<script>alert(1)</script>")).data)) ∧
    sanitizeValue (some "Hello, World!") = "Hello, World!" ∧
    sanitizeValue (some ("Tom " ++ "&" ++ " Jerry"))
      = sanitizeValue (some "Tom ") ++ "&amp;" ++ sanitizeValue (some " Jerry") ∧
    sanitizeValue (some ("Tom " ++ "&" ++ " Jerry")) = "Tom &amp; Jerry" := by
  obtain ⟨-, -, hscript, hid, hhom, hamp, -⟩ := sanitizeValue_encodes_markup
  refine ⟨hscript "<script>alert(1)</script>", hid "Hello, World!" (by decide), ?_, ?_⟩
  · rw [hhom, hhom, hamp]
  · rw [hhom, hhom, hamp, hid "Tom " (by decide), hid " Jerry" (by decide)]
    decide

/-- C5: `validateInput` runs all four constraint checks without
short-circuiting and collects every failing message, in the fixed order
required-empty, below minLength, above maxLength, pattern mismatch; the
`valid` flag is true iff the error list is empty; a value failing several
constraints at once yields one message per failing constraint, in order
(shown at a concrete input failing required, minLength and pattern). -/
theorem validateInput_collects_all_errors :
    (∀ (pol : TierPolicy) (value : String) (c : ValidationConstraints),
      (validateInput pol value c).errors =
        (if c.required.getD pol.validation.required && value.length = 0
          then ["This field is required"] else [])
        ++ (match c.minLength with
            | some m => if value.length < m then [minLengthMsg m] else []
            | none => [])
        ++ (if value.length > c.maxLength.getD pol.validation.maxLength
            then [maxLengthMsg (c.maxLength.getD pol.validation.maxLength)] else [])
        ++ (match c.pattern with
            | some p => if !p value then ["Invalid format"] else []
            | none => [])) ∧
    (∀ (pol : TierPolicy) (value : String) (c : ValidationConstraints),
      (validateInput pol value c).valid = true ↔ (validateInput pol value c).errors = []) ∧
    (validateInput criticalPolicy ""
        { required := some true, minLength := some 5, maxLength := none,
          pattern := some (fun s => s = "x") }).errors
      = ["This field is required", minLengthMsg 5, "Invalid format"] := by
  refine ⟨?_, ?_, ?_⟩
  · intro pol value c
    simp only [validateInput]
    cases c.minLength <;> cases c.pattern <;>
      simp <;> split_ifs <;> simp
  · intro pol value c
    simp only [validateInput]
    exact List.isEmpty_iff
  · rfl

/-- Reading back the cell just written. -/
theorem ArrayHeap.read_write_self (h : ArrayHeap) (r : Nat) (v : List AuditEntry)
    (hr : h.Live r) : (h.write r v).read r = v := by
  simp only [ArrayHeap.read, ArrayHeap.write, List.getD_eq_getElem?_getD]
  rw [List.getElem?_set_self']
  rw [List.getElem?_eq_getElem hr]
  rfl

/-- Writing one cell leaves every other cell unchanged. -/
theorem ArrayHeap.read_write_ne (h : ArrayHeap) (r q : Nat) (v : List AuditEntry)
    (hne : r ≠ q) : (h.write r v).read q = h.read q := by
  simp only [ArrayHeap.read, ArrayHeap.write, List.getD_eq_getElem?_getD]
  rw [List.getElem?_set_ne hne]

/-- Allocation leaves existing cells unchanged. -/
theorem ArrayHeap.read_alloc_old (h : ArrayHeap) (v : List AuditEntry) (q : Nat)
    (hq : h.Live q) : (h.alloc v).2.read q = h.read q := by
  simp only [ArrayHeap.read, ArrayHeap.alloc, List.getD_eq_getElem?_getD]
  rw [List.getElem?_append_left hq]

/-- The freshly allocated cell holds the allocated value. -/
theorem ArrayHeap.read_alloc_new (h : ArrayHeap) (v : List AuditEntry) :
    (h.alloc v).2.read (h.alloc v).1 = v := by
  simp [ArrayHeap.read, ArrayHeap.alloc, List.getD_eq_getElem?_getD]

/-- An arbitrary mutation sequence on one cell never touches a different
cell. -/
theorem read_mutateAll_ne (r q : Nat) (hne : r ≠ q) :
    ∀ (ws : List (List AuditEntry)) (h : ArrayHeap),
      (mutateAll h r ws).read q = h.read q := by
  intro ws
  induction ws with
  | nil => intro h; rfl
  | cons w ws ih =>
    intro h
    rw [mutateAll, ih, ArrayHeap.read_write_ne h r q w hne]

/-- C6: `audit(event, data)` appends exactly one entry — carrying the
event tag, the ISO-8601 timestamp string supplied by the clock, and the
instance's tier — to the backing store, and `getAuditLog()` hands out a
reference distinct from the backing store holding a copy of its current
contents, so that any sequence of caller mutations applied through the
returned reference leaves every subsequent read of the backing store
unaffected. -/
theorem audit_appends_and_getAuditLog_copies (h : ArrayHeap) (logRef : Nat)
    (event ts tier : String) (hlive : h.Live logRef) :
    ((audit h logRef event ts tier).read logRef
      = h.read logRef ++ [{ event := event, timestamp := ts, tier := tier }]) ∧
    (getAuditLog h logRef).1 ≠ logRef ∧
    (getAuditLog h logRef).2.read (getAuditLog h logRef).1 = h.read logRef ∧
    (∀ ws : List (List AuditEntry),
      (mutateAll (getAuditLog h logRef).2 (getAuditLog h logRef).1 ws).read logRef
        = h.read logRef) := by
  have hfresh : (getAuditLog h logRef).1 = h.cells.length := rfl
  have hne : (getAuditLog h logRef).1 ≠ logRef := by
    rw [hfresh]
    exact fun hcontra => absurd (hcontra ▸ hlive) (lt_irrefl _)
  refine ⟨?_, hne, ?_, ?_⟩
  · exact ArrayHeap.read_write_self h logRef _ hlive
  · exact ArrayHeap.read_alloc_new h (h.read logRef)
  · intro ws
    rw [read_mutateAll_ne _ logRef hne ws]
    exact ArrayHeap.read_alloc_old h (h.read logRef) logRef hlive

/-- C6 witness: a one-cell heap; auditing appends the entry, and a caller
overwriting the returned copy twice does not change what the instance
reads back. -/
theorem audit_appends_and_getAuditLog_copies_witness :
    ((audit ⟨[[]]⟩ 0 "test_access" "2026-01-01T00:00:00.000Z" "critical").read 0
      = [{ event := "test_access", timestamp := "2026-01-01T00:00:00.000Z",
           tier := "critical" }]) ∧
    (∀ ws : List (List AuditEntry),
      (mutateAll (getAuditLog ⟨[[]]⟩ 0).2 (getAuditLog ⟨[[]]⟩ 0).1 ws).read 0 = []) := by
  have h := audit_appends_and_getAuditLog_copies ⟨[[]]⟩ 0 "test_access"
    "2026-01-01T00:00:00.000Z" "critical" (by simp [ArrayHeap.Live])
  exact ⟨h.1, h.2.2.2⟩

/-- `#transferOptions` always leaves the one-shot guard set. -/
theorem transferOptions_transferred (st : SelectState) :
    (transferOptions st).optionsTransferred = true := by
  unfold transferOptions
  split
  · assumption
  · split
    · rfl
    · dsimp only
      split
      · rfl
      · split
        · rfl
        · split <;> rfl

/-- C8: the microtask-deferred light-DOM option transfer is one-shot: once
the `#optionsTransferred` guard is set the call returns the state verbatim
— no options added, the valid-option set untouched, the select value
unchanged — and consequently running the transfer twice equals running it
once. -/
theorem transferOptions_one_shot :
    (∀ st : SelectState, st.optionsTransferred = true → transferOptions st = st) ∧
    (∀ st : SelectState, transferOptions (transferOptions st) = transferOptions st) := by
  have h1 : ∀ st : SelectState, st.optionsTransferred = true → transferOptions st = st := by
    intro st h
    unfold transferOptions
    rw [if_pos h]
  exact ⟨h1, fun st => h1 _ (transferOptions_transferred st)⟩

/-- A secure-select whose options have already been transferred and whose
light DOM still holds a stale option. -/
def transferredState : SelectState :=
  { optionsTransferred := true
    validOptions := ["us", "uk"]
    selectOptions := [{ value := "us", text := "United States", selected := false, disabled := false },
                      { value := "uk", text := "United Kingdom", selected := false, disabled := false }]
    selectValue := "us"
    lightOptions := [{ valueAttr := some "fr", textContent := "France",
                       hasSelected := false, hasDisabled := false }]
    valueAttr := none
    isMultiple := false
    auditEvents := []
    lastError := none
    initialized := true
    connected := true
    rl := { count := 0, windowStart := 0 } }

/-- C8 witness: a second transfer on a concrete already-transferred
instance is the identity. -/
theorem transferOptions_one_shot_witness :
    transferOptions transferredState = transferredState :=
  transferOptions_one_shot.1 transferredState rfl

/-- Membership in the model of `Set.add`. -/
theorem mem_addSet (s : List String) (v x : String) (h : x ∈ addSet s v) :
    x ∈ s ∨ x = v := by
  unfold addSet at h
  split at h
  · exact Or.inl h
  · rcases List.mem_append.mp h with h1 | h2
    · exact Or.inl h1
    · exact Or.inr (List.mem_singleton.mp h2)

/-- Every valid-option value produced by the transfer loop is either
pre-existing or the image of `sanitizeValue`. -/
theorem foldl_transferOne_validOptions :
    ∀ (l : List LightOption) (acc : TransferAcc) (x : String),
      x ∈ (l.foldl transferOne acc).validOptions →
      x ∈ acc.validOptions ∨ ∃ r, x = sanitizeValue (some r) := by
  intro l
  induction l with
  | nil =>
    intro acc x h
    exact Or.inl h
  | cons o os ih =>
    intro acc x h
    rcases ih (transferOne acc o) x h with h1 | h2
    · rcases mem_addSet _ _ _ h1 with ha | hv
      · exact Or.inl ha
      · exact Or.inr ⟨o.valueAttr.getD "", hv⟩
    · exact Or.inr h2

/-- Valid-option provenance through `#transferOptions`: members are
pre-existing or sanitized. -/
theorem transferOptions_validOptions_sanitized (st : SelectState) (x : String)
    (h : x ∈ (transferOptions st).validOptions) :
    x ∈ st.validOptions ∨ ∃ r, x = sanitizeValue (some r) := by
  unfold transferOptions at h
  split at h
  · exact Or.inl h
  · split at h
    · exact Or.inl h
    · dsimp only at h
      split at h
      · exact foldl_transferOne_validOptions st.lightOptions _ x h
      · split at h
        · exact foldl_transferOne_validOptions st.lightOptions _ x h
        · split at h
          · exact foldl_transferOne_validOptions st.lightOptions _ x h
          · exact foldl_transferOne_validOptions st.lightOptions _ x h

/-- A value whose `Set.has` check is false is not a member. -/
theorem contains_false_notMem {l : List String} {a : String}
    (h : l.contains a = false) : a ∉ l := by
  intro hmem
  have ht : l.contains a = true := List.elem_iff.mpr hmem
  rw [ht] at h
  exact Bool.noConfusion h

/-- Assigning a value to the internal select never produces anything
outside the empty string or the assigned value. -/
theorem assignSelectValue_cases (opts : List OptionEl) (v : String) :
    assignSelectValue opts v = v ∨ assignSelectValue opts v = "" := by
  unfold assignSelectValue
  split
  · exact Or.inl rfl
  · exact Or.inr rfl

/-- C9: on a single-select instance, after a change event the internal
select's value is the empty string or a registered valid option — a change
to an unregistered non-empty value is reset to the empty string with one
`invalid_option_detected` audit entry; the public value setter is the
identity on values outside the valid-option set and keeps the invariant
for registered values; and the valid-option set is populated exclusively
through `sanitizeValue` images (plus whatever was already registered). -/
theorem handleChange_value_invariant (st : SelectState) (hsingle : st.isMultiple = false) :
    ((handleChange st).selectValue = "" ∨
      (handleChange st).selectValue ∈ (handleChange st).validOptions) ∧
    (st.selectValue ≠ "" → st.validOptions.contains st.selectValue = false →
      (handleChange st).selectValue = "" ∧
      (handleChange st).auditEvents = st.auditEvents ++ ["invalid_option_detected"]) ∧
    (∀ v : String, st.validOptions.contains v = false → setValue st v = st) ∧
    (∀ v : String, st.validOptions.contains v = true →
      (setValue st v).selectValue = "" ∨ (setValue st v).selectValue ∈ st.validOptions) ∧
    (∀ x ∈ (transferOptions st).validOptions,
      x ∈ st.validOptions ∨ ∃ r, x = sanitizeValue (some r)) := by
  refine ⟨?_, ?_, ?_, ?_, fun x hx => transferOptions_validOptions_sanitized st x hx⟩
  · unfold handleChange
    rw [if_neg (by simp [hsingle])]
    dsimp only
    split
    · left
      rcases assignSelectValue_cases st.selectOptions "" with h | h <;> simp [h]
    · rename_i hcond
      rw [Bool.and_eq_true, not_and_or] at hcond
      rcases hcond with h | h
      · left
        simpa using h
      · right
        have hmem : st.selectValue ∈ st.validOptions := by
          cases hb : st.validOptions.contains st.selectValue with
          | true => exact List.elem_iff.mp hb
          | false => exact absurd (by rw [hb]; rfl) h
        simpa using hmem
  · intro hne hcont
    have hnm : st.selectValue ∉ st.validOptions := contains_false_notMem hcont
    unfold handleChange
    rw [if_neg (by simp [hsingle])]
    dsimp only
    rw [if_pos (by simp [hne, hnm])]
    constructor
    · rcases assignSelectValue_cases st.selectOptions "" with h | h <;> simp [h]
    · rfl
  · intro v hcont
    have hnm : v ∉ st.validOptions := contains_false_notMem hcont
    unfold setValue
    rw [if_neg (by simp [hsingle])]
    rw [if_neg (by simp [hnm])]
  · intro v hcont
    have hmem : v ∈ st.validOptions := List.elem_iff.mp hcont
    unfold setValue
    rw [if_neg (by simp [hsingle])]
    rw [if_pos (by simp [hmem])]
    rcases assignSelectValue_cases st.selectOptions v with h | h
    · right
      simpa [h] using hmem
    · left
      simp [h]

/-- A connected single secure-select holding options `us`/`uk` whose
internal select was driven (e.g. via devtools) to an unregistered value. -/
def tamperedState : SelectState :=
  { optionsTransferred := true
    validOptions := ["us", "uk"]
    selectOptions := [{ value := "us", text := "United States", selected := false, disabled := false },
                      { value := "uk", text := "United Kingdom", selected := false, disabled := false }]
    selectValue := "evil"
    lightOptions := []
    valueAttr := none
    isMultiple := false
    auditEvents := []
    lastError := none
    initialized := true
    connected := true
    rl := { count := 0, windowStart := 0 } }

/-- C9 witness: the tampered value is reset to the empty string with an
`invalid_option_detected` audit entry, and the setter ignores the
unregistered value. -/
theorem handleChange_value_invariant_witness :
    (handleChange tamperedState).selectValue = "" ∧
    (handleChange tamperedState).auditEvents
      = tamperedState.auditEvents ++ ["invalid_option_detected"] ∧
    setValue tamperedState "evil" = tamperedState := by
  have h := handleChange_value_invariant tamperedState rfl
  have hbad := h.2.1 (by decide) (by decide)
  exact ⟨hbad.1, hbad.2, h.2.2.1 "evil" (by decide)⟩

/-- C10: `disconnectedCallback` on secure-select runs only the base
teardown, so the valid-option set survives a disconnect/reconnect cycle —
such as the one a secure-form triggers by moving its children into a form
element — and a previously registered option value still validates after
reconnection (the change handler keeps it and audits `select_changed`
instead of rejecting it as an invalid option). -/
theorem selDisconnect_preserves_validOptions (st : SelectState) (v : String)
    (hv : v ∈ st.validOptions) (hinit : st.initialized = true)
    (hsingle : st.isMultiple = false) :
    (selDisconnect st).validOptions = st.validOptions ∧
    (selConnect (selDisconnect st)).validOptions = st.validOptions ∧
    (handleChange { selConnect (selDisconnect st) with selectValue := v }).selectValue = v ∧
    (handleChange { selConnect (selDisconnect st) with selectValue := v }).auditEvents
      = st.auditEvents ++ ["select_changed"] := by
  have hcont : st.validOptions.contains v = true := List.elem_iff.mpr hv
  have hconn : selConnect (selDisconnect st)
      = { st with connected := true, rl := { count := 0, windowStart := 0 } } := by
    simp [selConnect, selDisconnect, hinit]
  refine ⟨rfl, by rw [hconn], ?_, ?_⟩ <;>
    · rw [hconn]
      unfold handleChange
      rw [if_neg (by simp [hsingle])]
      dsimp only
      rw [if_neg (by simp [hv])]

/-- C10 witness: on a concrete connected instance, disconnect/reconnect
keeps the registered options `us`/`uk` and a subsequent change to `us`
is accepted. -/
theorem selDisconnect_preserves_validOptions_witness :
    (selDisconnect transferredState).validOptions = ["us", "uk"] ∧
    (handleChange { selConnect (selDisconnect transferredState) with
        selectValue := "us" }).selectValue = "us" := by
  have h := selDisconnect_preserves_validOptions transferredState "us"
    (by decide) rfl rfl
  exact ⟨h.1, h.2.2.1⟩

end SecureUI
